import Mathlib

/-!
Shallow embedding of the connection/request layer of the MCP inspector client
(`src/client/src/utils/configUtils.ts`, the `useConnection` hook).

The React `useState` cells of the hook become the fields of `ConnState`;
each operation of the hook becomes a pure function from the state (and
oracles standing for the behaviour of external collaborators: the MCP
client's `request`/`connect` calls, the proxy health fetch, the OAuth
`auth` flow) to the new state together with its observable effects
(returned/thrown value, toasts shown, counters of external calls).
`JSON.stringify` is modelled by an injective encoding `stringify`.
-/

namespace McpInspector

/-- The `ConnectionStatus` values used by `useConnection`
(`"disconnected"`, `"connected"`, `"error"`, `"error-connecting-to-proxy"`). -/
inductive ConnectionStatus where
  | disconnected
  | connected
  | error
  | errorConnectingToProxy
deriving DecidableEq, Repr

/-- One entry of the `requestHistory` state cell:
`\x7b request: string; response?: string \x7d`. -/
structure RequestRecord where
  request : String
  response : Option String
deriving DecidableEq, Repr

/-- A JSON-serializable value appearing in requests, responses and history.
`completionResult` stands for a parse of `CompleteResultSchema`
(carrying `completion.values`); `errObj msg` stands for the object
`\x7b error: msg \x7d` built in the catch branches. -/
inductive Obj where
  | req (method : String) (params : String)
  | notif (method : String) (params : String)
  | res (payload : String)
  | errObj (message : String)
  | completionResult (values : List String)
deriving DecidableEq, Repr

/-- Model of `JSON.stringify` on `Obj`: a concrete injective encoding. -/
def stringify : Obj → String
  | .req m p => "req:" ++ m ++ ":" ++ p
  | .notif m p => "notif:" ++ m ++ ":" ++ p
  | .res p => "res:" ++ p
  | .errObj m => "errObj:" ++ m
  | .completionResult vs => "completion:" ++ String.intercalate "," vs

/-- The state cells of the `useConnection` hook. -/
structure ConnState where
  connectionStatus : ConnectionStatus
  serverCapabilities : Option String
  mcpClient : Option Unit
  requestHistory : List RequestRecord
  completionsSupported : Bool
deriving DecidableEq, Repr

/-- `pushHistory(request, response?)`: appends one serialized record to
`requestHistory`. -/
def pushHistory (request : Obj) (response : Option Obj) (s : ConnState) : ConnState :=
  { s with requestHistory :=
      s.requestHistory ++ [⟨stringify request, response.map stringify⟩] }

/-- Errors thrown by the SDK client or by the hook itself: `McpError`
(carrying a protocol error code) versus any other `Error`. -/
inductive ReqError where
  | mcpError (code : Int) (msg : String)
  | otherError (msg : String)
deriving DecidableEq, Repr

/-- The `.message` property of the thrown error. -/
def ReqError.message : ReqError → String
  | .mcpError _ m => m
  | .otherError m => m

/-- `ErrorCode.MethodNotFound` of the MCP SDK (JSON-RPC -32601). -/
def methodNotFoundCode : Int := -32601

/-- Oracle for one `mcpClient.request(...)` call: it resolves with a result
or rejects with an error (a timeout, an abort via the cancellation signal,
a network failure and a schema mismatch all surface as rejections). -/
inductive ReqOutcome where
  | success (result : Obj)
  | failure (e : ReqError)
deriving DecidableEq, Repr

/-- Observable outcome of a `makeRequest` call: the returned value or the
rethrown error, the new hook state, and the toasts shown. -/
structure MakeRequestRes where
  result : Except ReqError Obj
  state : ConnState
  toasts : List String
deriving Repr

/-- `makeRequest(request, schema, options?)`.  Throws `"MCP client not
connected"` when `mcpClient` is null (before the try block, so no history
entry and no toast); otherwise performs the request (oracle `outcome`),
pushes exactly one history record in both branches, and on failure shows a
toast unless `suppressToast` and rethrows. -/
def makeRequest (outcome : ReqOutcome) (suppressToast : Bool) (request : Obj)
    (s : ConnState) : MakeRequestRes :=
  match s.mcpClient with
  | none => ⟨.error (.otherError "MCP client not connected"), s, []⟩
  | some _ =>
    match outcome with
    | .success r => ⟨.ok r, pushHistory request (some r) s, []⟩
    | .failure e =>
      let s' := pushHistory request (some (.errObj e.message)) s
      ⟨.error e, s', if suppressToast then [] else [e.message]⟩

/-- `response?.completion.values || []` after a successful
`CompleteResultSchema` request. -/
def completionValues : Obj → List String
  | .completionResult vs => vs
  | _ => []

/-- Observable outcome of a `handleCompletion` call; `networkCalls` counts
the `mcpClient.request` invocations it caused. -/
structure HandleCompletionRes where
  result : Except ReqError (List String)
  state : ConnState
  toasts : List String
  networkCalls : Nat
deriving Repr

/-- `handleCompletion(ref, argName, value, signal?)`: returns `[]` at once
when there is no client or `completionsSupported` is false; otherwise
issues a `completion/complete` request through `makeRequest` with
`suppressToast: true`; a `McpError` with `MethodNotFound` flips
`completionsSupported` to false and yields `[]` silently; any other error
is toasted and rethrown. -/
def handleCompletion (outcome : ReqOutcome) (refName argName value : String)
    (s : ConnState) : HandleCompletionRes :=
  if s.mcpClient = none ∨ s.completionsSupported = false then
    ⟨.ok [], s, [], 0⟩
  else
    let request := Obj.req "completion/complete"
      (refName ++ ";" ++ argName ++ ";" ++ value)
    let mr := makeRequest outcome true request s
    match mr.result with
    | .ok r => ⟨.ok (completionValues r), mr.state, mr.toasts, 1⟩
    | .error e =>
      match e with
      | .mcpError code msg =>
        if code = methodNotFoundCode then
          ⟨.ok [], { mr.state with completionsSupported := false }, mr.toasts, 1⟩
        else
          ⟨.error (.mcpError code msg), mr.state, mr.toasts ++ [msg], 1⟩
      | .otherError msg =>
        ⟨.error (.otherError msg), mr.state, mr.toasts ++ [msg], 1⟩

/-- Oracle for one `mcpClient.notification(...)` call. -/
inductive NotifOutcome where
  | success
  | failure (e : ReqError)
deriving DecidableEq, Repr

/-- Observable outcome of a `sendNotification` call. -/
structure SendNotificationRes where
  result : Except ReqError Unit
  state : ConnState
  toasts : List String
deriving Repr

/-- `sendNotification(notification)`: with no client, toasts and throws
`"MCP client not connected"`; on success records the notification to
history; on an `McpError` also records the error to history; every error
is toasted and rethrown. -/
def sendNotification (outcome : NotifOutcome) (notification : Obj)
    (s : ConnState) : SendNotificationRes :=
  match s.mcpClient with
  | none =>
    ⟨.error (.otherError "MCP client not connected"), s,
      ["MCP client not connected"]⟩
  | some _ =>
    match outcome with
    | .success => ⟨.ok (), pushHistory notification none s, []⟩
    | .failure e =>
      let s' := match e with
        | .mcpError _ msg => pushHistory notification (some (.errObj msg)) s
        | .otherError _ => s
      ⟨.error e, s', [e.message]⟩

/-- `checkProxyHealth()`: the oracle `fetched` is the result of
`fetch(proxyAddress + "/health")` followed by `.json()` — an exception
(network error, malformed proxy address, malformed JSON body) or the
body's optional `status` field.  A body whose `status` is not `"ok"`
throws `"MCP Proxy Server is not healthy"`; every exception is rethrown. -/
def checkProxyHealth (fetched : Except String (Option String)) :
    Except String Unit :=
  match fetched with
  | .error e => .error e
  | .ok st =>
    if st = some "ok" then .ok ()
    else .error "MCP Proxy Server is not healthy"

/-- The persistent state owned by `sessionStorage` and the `authProvider`:
the value stored under the key `SESSION_KEYS.SERVER_URL`, and the OAuth
token set held by the provider (its `access_token`). -/
structure AuthStore where
  storedServerUrl : Option String
  tokens : Option String
deriving DecidableEq, Repr

/-- Oracle for one `client.connect(clientTransport)` call: success, or a
rejection — an `SseError`/`StreamableHttpError` carrying an HTTP code, or
any other error. -/
inductive HandshakeOutcome where
  | success
  | transportError (code : Int)
  | otherError (msg : String)
deriving DecidableEq, Repr

/-- `(error instanceof SseError || error instanceof StreamableHttpError)
&& error.code === 401`. -/
def isAuth401 : HandshakeOutcome → Bool
  | .transportError code => code = 401
  | _ => false

/-- `handleAuthError(error)`, transcribed as written: the guard compares
the KEY constant `SESSION_KEYS.SERVER_URL` itself with `sseUrl`
(`SESSION_KEYS.SERVER_URL != sseUrl`), clears the provider's tokens when
they differ, stores `sseUrl` under the key, runs the interactive `auth`
flow (oracle `authAuthorized` is `result === "AUTHORIZED"`), and returns
whether to retry.  A non-401 error returns false and leaves the store
untouched. -/
def handleAuthError (serverUrlKey sseUrl : String) (authAuthorized : Bool)
    (err : HandshakeOutcome) (st : AuthStore) : Bool × AuthStore :=
  if isAuth401 err then
    let st1 := if serverUrlKey ≠ sseUrl then { st with tokens := none } else st
    let st2 := { st1 with storedServerUrl := some sseUrl }
    (authAuthorized, st2)
  else
    (false, st)

/-- `handleAuthError` as the spec describes it: the stored server URL
(`sessionStorage.getItem(SESSION_KEYS.SERVER_URL)`) is compared with
`sseUrl`, and tokens are cleared only when the remembered URL differs from
the one being connected to. -/
def handleAuthErrorSpec (sseUrl : String) (authAuthorized : Bool)
    (err : HandshakeOutcome) (st : AuthStore) : Bool × AuthStore :=
  if isAuth401 err then
    let st1 := if st.storedServerUrl ≠ some sseUrl then
        { st with tokens := none } else st
    let st2 := { st1 with storedServerUrl := some sseUrl }
    (authAuthorized, st2)
  else
    (false, st)

/-- `transportType` of `UseConnectionOptions`. -/
inductive TransportType where
  | stdio
  | sse
  | streamableHttp
deriving DecidableEq, Repr

/-- The connection parameters of the hook that `connect` reads. -/
structure ConnectCfg where
  transportType : TransportType
  sseUrl : String
  bearerToken : Option String
  serverUrlKey : String
deriving Repr

/-- JavaScript `a || b` on optional strings (the empty string is falsy). -/
def jsOrString (a b : Option String) : Option String :=
  match a with
  | some x => if x = "" then b else some x
  | none => b

/-- Lines 325-330 of `connect`: `const token = bearerToken ||
(await authProvider.tokens())?.access_token; if (token)
headers["Authorization"] = "Bearer " + token`. -/
def authHeader (bearerToken oauthAccessToken : Option String) :
    Option String :=
  match jsOrString bearerToken oauthAccessToken with
  | some t => if t = "" then none else some ("Bearer " ++ t)
  | none => none

/-- Per-attempt oracle of `connect`: the handshake outcome, the `auth`
flow outcome consulted on a 401, what `client.getServerCapabilities()`
returns (`?? null`), and whether the post-connection setup
(`setRequestHandler` installation) throws. -/
structure AttemptOracle where
  handshake : HandshakeOutcome
  authAuthorized : Bool
  capabilities : Option String
  postSetupOk : Bool
deriving Repr

/-- Oracles fixed across retries: the health fetch result and whether
`new URL(sseUrl)` (the `StreamableHttpTransport` constructor argument)
parses. -/
structure GlobalOracle where
  healthFetch : Except String (Option String)
  sseUrlParses : Bool
deriving Repr

/-- Whether one connect attempt finished or asked for a retry
(`return connect(undefined, retryCount + 1)`). -/
inductive AttemptStep where
  | done (s : ConnState) (st : AuthStore)
  | retry (s : ConnState) (st : AuthStore)
deriving Repr

/-- The trace of one connect attempt: its outcome plus counters of the
external calls it made (health checks, transports constructed, handshakes
attempted) and the Authorization header values it computed for the
transport. -/
structure AttemptTrace where
  step : AttemptStep
  healthChecks : Nat
  transportsBuilt : Nat
  handshakes : Nat
  authHeaders : List (Option String)
deriving Repr

/-- Lines 395-446 of `connect`: the handshake and what follows.  On
success the post-connection setup stores capabilities, resets
`completionsSupported` to true, stores the client and sets status
`connected`; if that setup throws, status becomes `error` and the client
is discarded.  On a rejection, `handleAuthError` runs; `true` asks for a
retry; otherwise a 401 returns with the state untouched and anything else
sets status `error`. -/
def connectHandshake (cfg : ConnectCfg) (a : AttemptOracle) (s : ConnState)
    (st : AuthStore) (hc : Nat) (header : Option String) : AttemptTrace :=
  match a.handshake with
  | .success =>
    if a.postSetupOk then
      ⟨.done { s with connectionStatus := .connected,
                      serverCapabilities := a.capabilities,
                      completionsSupported := true,
                      mcpClient := some () } st, hc, 1, 1, [header]⟩
    else
      ⟨.done { s with serverCapabilities := a.capabilities,
                      completionsSupported := true,
                      connectionStatus := .error,
                      mcpClient := none } st, hc, 1, 1, [header]⟩
  | e =>
    let r := handleAuthError cfg.serverUrlKey cfg.sseUrl a.authAuthorized e st
    if r.1 then
      ⟨.retry s r.2, hc, 1, 1, [header]⟩
    else if isAuth401 e then
      ⟨.done s r.2, hc, 1, 1, [header]⟩
    else
      ⟨.done { s with connectionStatus := .error } r.2, hc, 1, 1, [header]⟩

/-- Lines 324-364 of `connect`: compute the Authorization header, then
construct the transport.  For `streamableHttp` a throwing
`new URL(sseUrl)` is caught and sets status `error`; the proxied kinds
build the proxy SSE URL from the address the health check already parsed,
so construction succeeds. -/
def connectBuildTransport (cfg : ConnectCfg) (g : GlobalOracle)
    (a : AttemptOracle) (s : ConnState) (st : AuthStore) (hc : Nat) :
    AttemptTrace :=
  let header := authHeader cfg.bearerToken st.tokens
  if cfg.transportType = .streamableHttp && !g.sseUrlParses then
    ⟨.done { s with connectionStatus := .error } st, hc, 0, 0, [header]⟩
  else
    connectHandshake cfg a s st hc header

/-- One attempt of `connect` (lines 298-446): proxy health check first for
`stdio`/`sse` (a failure sets `error-connecting-to-proxy` and returns),
then transport construction and handshake. -/
def connectAttempt (cfg : ConnectCfg) (g : GlobalOracle) (a : AttemptOracle)
    (s : ConnState) (st : AuthStore) : AttemptTrace :=
  if cfg.transportType = .streamableHttp then
    connectBuildTransport cfg g a s st 0
  else
    match checkProxyHealth g.healthFetch with
    | .error _ =>
      ⟨.done { s with connectionStatus := .errorConnectingToProxy } st,
        1, 0, 0, []⟩
    | .ok _ => connectBuildTransport cfg g a s st 1

/-- The final outcome of a `connect` call, with the external-call counters
accumulated over all retry attempts. -/
structure ConnectRes where
  state : ConnState
  store : AuthStore
  healthChecks : Nat
  transportsBuilt : Nat
  handshakes : Nat
  authHeaders : List (Option String)
deriving Repr

/-- The retry loop of `connect`: each 401-authorized outcome reruns the
whole sequence (`return connect(undefined, retryCount + 1)`).  The source
imposes no retry cap; the oracle list bounds the modelled attempts, and an
exhausted list stops with the state reached so far. -/
def connectGo (cfg : ConnectCfg) (g : GlobalOracle) :
    AttemptOracle → List AttemptOracle → ConnState → AuthStore → ConnectRes
  | a, [], s, st =>
    let t := connectAttempt cfg g a s st
    match t.step with
    | .done s' st' =>
      ⟨s', st', t.healthChecks, t.transportsBuilt, t.handshakes, t.authHeaders⟩
    | .retry s' st' =>
      ⟨s', st', t.healthChecks, t.transportsBuilt, t.handshakes, t.authHeaders⟩
  | a, a2 :: rest2, s, st =>
    let t := connectAttempt cfg g a s st
    match t.step with
    | .done s' st' =>
      ⟨s', st', t.healthChecks, t.transportsBuilt, t.handshakes, t.authHeaders⟩
    | .retry s' st' =>
      let r := connectGo cfg g a2 rest2 s' st'
      ⟨r.state, r.store, t.healthChecks + r.healthChecks,
        t.transportsBuilt + r.transportsBuilt, t.handshakes + r.handshakes,
        t.authHeaders ++ r.authHeaders⟩

/-- `connect(_e?, retryCount = 0)`. -/
def connect (cfg : ConnectCfg) (g : GlobalOracle) (a : AttemptOracle)
    (rest : List AttemptOracle) (s : ConnState) (st : AuthStore) :
    ConnectRes :=
  connectGo cfg g a rest s st

/-- `disconnect()`: close the client if present, then clear the client,
set status `disconnected`, set `completionsSupported` false and clear
capabilities. -/
def disconnect (s : ConnState) : ConnState :=
  { s with mcpClient := none,
           connectionStatus := .disconnected,
           completionsSupported := false,
           serverCapabilities := none }

/-- The single history record that a `makeRequest` call on a live session
appends: the serialized request, paired with the serialized result on
success or the serialized `\x7b error: message \x7d` object on failure. -/
def makeRequestRecord (outcome : ReqOutcome) (request : Obj) : RequestRecord :=
  match outcome with
  | .success r => ⟨stringify request, some (stringify r)⟩
  | .failure e => ⟨stringify request, some (stringify (.errObj e.message))⟩

/-- The hook state carried by an attempt step. -/
def AttemptStep.connState : AttemptStep → ConnState
  | .done s _ => s
  | .retry s _ => s

/-- A state with a live client and a nonempty request history, as left by
a previous session (used as a concrete evaluation point). -/
def sampleHistoryState : ConnState :=
  ⟨.connected, some "caps", some (), [⟨"req:old:x", some "res:y"⟩], true⟩

/-- A disconnected state with empty history (concrete evaluation point). -/
def sampleFreshState : ConnState :=
  ⟨.disconnected, none, none, [], true⟩

/-- A `stdio` connection target (concrete evaluation point). -/
def sampleCfgStdio : ConnectCfg :=
  ⟨.stdio, "http://target.example/mcp", none, "lastServerUrl"⟩

/-- A direct `streamableHttp` connection target (concrete evaluation
point). -/
def sampleCfgStream : ConnectCfg :=
  ⟨.streamableHttp, "http://target.example/mcp", none, "lastServerUrl"⟩

/-- Proxy health fetch that fails on the wire (concrete evaluation
point). -/
def sampleOracleBadHealth : GlobalOracle := ⟨.error "fetch failed", true⟩

/-- Healthy proxy and parseable target URL (concrete evaluation point). -/
def sampleOracleGood : GlobalOracle := ⟨.ok (some "ok"), true⟩

/-- A handshake attempt that succeeds (concrete evaluation point). -/
def sampleAttemptSuccess : AttemptOracle := ⟨.success, false, some "caps", true⟩

/-- A handshake attempt rejected with a 401 whose auth flow authorizes
(concrete evaluation point). -/
def sampleAttempt401Auth : AttemptOracle :=
  ⟨.transportError 401, true, none, true⟩

/-- A handshake attempt rejected with a 401 whose auth flow left a
redirect pending (concrete evaluation point). -/
def sampleAttempt401Redirect : AttemptOracle :=
  ⟨.transportError 401, false, none, true⟩

/-!  Theorems.  Each claim of the specification is settled by exactly one
theorem below; shared structural lemmas about the connect loop come
first. -/

lemma connectHandshake_counts (cfg : ConnectCfg) (a : AttemptOracle)
    (s : ConnState) (st : AuthStore) (hc : Nat) (hd : Option String) :
    (connectHandshake cfg a s st hc hd).healthChecks = hc ∧
    (connectHandshake cfg a s st hc hd).transportsBuilt = 1 ∧
    (connectHandshake cfg a s st hc hd).handshakes = 1 ∧
    (connectHandshake cfg a s st hc hd).authHeaders = [hd] := by
  obtain ⟨hsk, aa, caps, pok⟩ := a
  cases hsk <;> simp only [connectHandshake] <;> (repeat' split) <;> simp

lemma connectBuildTransport_healthChecks (cfg : ConnectCfg)
    (g : GlobalOracle) (a : AttemptOracle) (s : ConnState) (st : AuthStore)
    (hc : Nat) :
    (connectBuildTransport cfg g a s st hc).healthChecks = hc := by
  unfold connectBuildTransport
  split
  · rfl
  · exact (connectHandshake_counts cfg a s st hc
      (authHeader cfg.bearerToken st.tokens)).1

lemma connectHandshake_step (cfg : ConnectCfg) (a : AttemptOracle)
    (s : ConnState) (st : AuthStore) (hc : Nat) (hd : Option String) :
    (∀ s' st', (connectHandshake cfg a s st hc hd).step = .done s' st' →
      s'.requestHistory = s.requestHistory ∧
      (s'.connectionStatus = .connected ∨ s'.connectionStatus = .error ∨
       s'.connectionStatus = .errorConnectingToProxy ∨
       s'.connectionStatus = s.connectionStatus)) ∧
    (∀ s' st', (connectHandshake cfg a s st hc hd).step = .retry s' st' →
      s' = s) := by
  obtain ⟨hsk, aa, caps, pok⟩ := a
  cases hsk <;>
    constructor <;>
    intro s' st' h <;>
    simp only [connectHandshake] at h <;>
    (repeat' split at h) <;>
    simp_all <;>
    obtain ⟨rfl, rfl⟩ := h <;>
    simp

lemma connectAttempt_step (cfg : ConnectCfg) (g : GlobalOracle)
    (a : AttemptOracle) (s : ConnState) (st : AuthStore) :
    (∀ s' st', (connectAttempt cfg g a s st).step = .done s' st' →
      s'.requestHistory = s.requestHistory ∧
      (s'.connectionStatus = .connected ∨ s'.connectionStatus = .error ∨
       s'.connectionStatus = .errorConnectingToProxy ∨
       s'.connectionStatus = s.connectionStatus)) ∧
    (∀ s' st', (connectAttempt cfg g a s st).step = .retry s' st' →
      s' = s) := by
  constructor <;>
    intro s' st' h <;>
    simp only [connectAttempt, connectBuildTransport] at h <;>
    (repeat' split at h) <;>
    first
      | exact (connectHandshake_step cfg a s st 0 _).1 s' st' h
      | exact (connectHandshake_step cfg a s st 1 _).1 s' st' h
      | exact (connectHandshake_step cfg a s st 0 _).2 s' st' h
      | exact (connectHandshake_step cfg a s st 1 _).2 s' st' h
      | (simp at h; try obtain ⟨rfl, rfl⟩ := h; simp)

lemma connectGo_state (cfg : ConnectCfg) (g : GlobalOracle) :
    ∀ (rest : List AttemptOracle) (a : AttemptOracle) (s : ConnState)
      (st : AuthStore),
      (connectGo cfg g a rest s st).state.requestHistory = s.requestHistory ∧
      ((connectGo cfg g a rest s st).state.connectionStatus = .connected ∨
       (connectGo cfg g a rest s st).state.connectionStatus = .error ∨
       (connectGo cfg g a rest s st).state.connectionStatus =
         .errorConnectingToProxy ∨
       (connectGo cfg g a rest s st).state.connectionStatus =
         s.connectionStatus) := by
  intro rest
  induction rest with
  | nil =>
    intro a s st
    simp only [connectGo]
    cases hstep : (connectAttempt cfg g a s st).step with
    | done s' st' =>
      simpa using (connectAttempt_step cfg g a s st).1 s' st' hstep
    | retry s' st' =>
      have hr := (connectAttempt_step cfg g a s st).2 s' st' hstep
      subst hr
      simp
  | cons a2 rest2 ih =>
    intro a s st
    simp only [connectGo]
    cases hstep : (connectAttempt cfg g a s st).step with
    | done s' st' =>
      simpa using (connectAttempt_step cfg g a s st).1 s' st' hstep
    | retry s' st' =>
      have hr := (connectAttempt_step cfg g a s st).2 s' st' hstep
      subst hr
      simpa using ih a2 s' st'

lemma connectAttempt_stream_healthChecks (cfg : ConnectCfg)
    (g : GlobalOracle) (a : AttemptOracle) (s : ConnState) (st : AuthStore)
    (h : cfg.transportType = .streamableHttp) :
    (connectAttempt cfg g a s st).healthChecks = 0 := by
  unfold connectAttempt
  rw [if_pos h]
  exact connectBuildTransport_healthChecks cfg g a s st 0

lemma connectGo_stream_healthChecks (cfg : ConnectCfg) (g : GlobalOracle)
    (h : cfg.transportType = .streamableHttp) :
    ∀ (rest : List AttemptOracle) (a : AttemptOracle) (s : ConnState)
      (st : AuthStore),
      (connectGo cfg g a rest s st).healthChecks = 0 := by
  intro rest
  induction rest with
  | nil =>
    intro a s st
    simp only [connectGo]
    cases hstep : (connectAttempt cfg g a s st).step <;>
      simpa using connectAttempt_stream_healthChecks cfg g a s st h
  | cons a2 rest2 ih =>
    intro a s st
    simp only [connectGo]
    cases hstep : (connectAttempt cfg g a s st).step with
    | done s' st' =>
      simpa using connectAttempt_stream_healthChecks cfg g a s st h
    | retry s' st' =>
      simp [connectAttempt_stream_healthChecks cfg g a s st h, ih a2 s' st']

lemma connectAttempt_through (cfg : ConnectCfg) (g : GlobalOracle)
    (a : AttemptOracle) (s : ConnState) (st : AuthStore)
    (hHealth : cfg.transportType ≠ .streamableHttp →
      checkProxyHealth g.healthFetch = .ok ())
    (hUrl : cfg.transportType = .streamableHttp → g.sseUrlParses = true) :
    connectAttempt cfg g a s st =
      connectHandshake cfg a s st
        (if cfg.transportType = .streamableHttp then 0 else 1)
        (authHeader cfg.bearerToken st.tokens) := by
  unfold connectAttempt connectBuildTransport
  by_cases h : cfg.transportType = .streamableHttp
  · simp [h, hUrl h]
  · simp [h, hHealth h]

lemma connectHandshake_on401 (cfg : ConnectCfg) (a : AttemptOracle)
    (s : ConnState) (st : AuthStore) (hc : Nat) (hd : Option String)
    (h401 : a.handshake = .transportError 401) :
    connectHandshake cfg a s st hc hd =
      ⟨if a.authAuthorized then
          .retry s (handleAuthError cfg.serverUrlKey cfg.sseUrl
            a.authAuthorized (.transportError 401) st).2
        else
          .done s (handleAuthError cfg.serverUrlKey cfg.sseUrl
            a.authAuthorized (.transportError 401) st).2,
        hc, 1, 1, [hd]⟩ := by
  unfold connectHandshake
  rw [h401]
  simp only [handleAuthError, isAuth401]
  cases a.authAuthorized <;> simp

lemma connectHandshake_onSuccess (cfg : ConnectCfg) (a : AttemptOracle)
    (s : ConnState) (st : AuthStore) (hc : Nat) (hd : Option String)
    (hs : a.handshake = .success) (hp : a.postSetupOk = true) :
    connectHandshake cfg a s st hc hd =
      ⟨.done { s with connectionStatus := .connected,
                      serverCapabilities := a.capabilities,
                      completionsSupported := true,
                      mcpClient := some () } st, hc, 1, 1, [hd]⟩ := by
  unfold connectHandshake
  rw [hs]
  simp [hp]

/-- C5: `connect` never raises an exception to its caller.  Every throwing
sub-operation of the source (the health fetch, `new URL(sseUrl)` in the
`StreamableHttpTransport` constructor, the handshake) is an `Except`
value in the embedding, every `catch` of the source is a total match in
`connectAttempt`, and `connect` is a total function whose final connection
status is always one of `connected`, `error`, `error-connecting-to-proxy`,
or the caller's status left unchanged (the 401-redirect case). -/
theorem connect_never_throws (cfg : ConnectCfg) (g : GlobalOracle)
    (a : AttemptOracle) (rest : List AttemptOracle) (s : ConnState)
    (st : AuthStore) :
    (connect cfg g a rest s st).state.connectionStatus = .connected ∨
    (connect cfg g a rest s st).state.connectionStatus = .error ∨
    (connect cfg g a rest s st).state.connectionStatus =
      .errorConnectingToProxy ∨
    (connect cfg g a rest s st).state.connectionStatus =
      s.connectionStatus :=
  (connectGo_state cfg g rest a s st).2

/-- C4: for the proxied transport kinds (`stdio`, `sse`) a failing proxy
health check ends the connect attempt with status
`error-connecting-to-proxy` before any transport is constructed or any
handshake attempted; for `streamableHttp` the health check is never
invoked at all. -/
theorem connect_proxy_health_gate :
    (∀ (cfg : ConnectCfg) (g : GlobalOracle) (a : AttemptOracle)
       (rest : List AttemptOracle) (s : ConnState) (st : AuthStore)
       (e : String),
      (cfg.transportType = .stdio ∨ cfg.transportType = .sse) →
      checkProxyHealth g.healthFetch = .error e →
      (connect cfg g a rest s st).state.connectionStatus =
        .errorConnectingToProxy ∧
      (connect cfg g a rest s st).transportsBuilt = 0 ∧
      (connect cfg g a rest s st).handshakes = 0) ∧
    (∀ (cfg : ConnectCfg) (g : GlobalOracle) (a : AttemptOracle)
       (rest : List AttemptOracle) (s : ConnState) (st : AuthStore),
      cfg.transportType = .streamableHttp →
      (connect cfg g a rest s st).healthChecks = 0) := by
  constructor
  · intro cfg g a rest s st e hk herr
    have hne : ¬ cfg.transportType = .streamableHttp := by
      rcases hk with h | h <;> simp [h]
    have hatt : connectAttempt cfg g a s st =
        ⟨.done { s with connectionStatus := .errorConnectingToProxy } st,
          1, 0, 0, []⟩ := by
      unfold connectAttempt
      rw [if_neg hne, herr]
    cases rest <;> simp [connect, connectGo, hatt]
  · intro cfg g a rest s st h
    exact connectGo_stream_healthChecks cfg g h rest a s st

/-- Witness for C4: a `stdio` connect against an unreachable proxy, and a
`streamableHttp` connect that never health-checks. -/
theorem connect_proxy_health_gate_witness :
    ((connect sampleCfgStdio sampleOracleBadHealth sampleAttemptSuccess []
        sampleFreshState ⟨none, none⟩).state.connectionStatus =
      .errorConnectingToProxy ∧
     (connect sampleCfgStdio sampleOracleBadHealth sampleAttemptSuccess []
        sampleFreshState ⟨none, none⟩).transportsBuilt = 0 ∧
     (connect sampleCfgStdio sampleOracleBadHealth sampleAttemptSuccess []
        sampleFreshState ⟨none, none⟩).handshakes = 0) ∧
    (connect sampleCfgStream sampleOracleGood sampleAttemptSuccess []
        sampleFreshState ⟨none, none⟩).healthChecks = 0 :=
  ⟨connect_proxy_health_gate.1 sampleCfgStdio sampleOracleBadHealth
      sampleAttemptSuccess [] sampleFreshState ⟨none, none⟩ "fetch failed"
      (Or.inl rfl) rfl,
   connect_proxy_health_gate.2 sampleCfgStream sampleOracleGood
      sampleAttemptSuccess [] sampleFreshState ⟨none, none⟩ rfl⟩

/-- C2: a 401 during the handshake followed by an authorized outcome of
the auth flow retries the whole connect sequence exactly once more, and a
successful retried handshake ends in status `connected`; a 401 followed
by a redirect-pending outcome returns with the hook state — in particular
the connection status — left unchanged. -/
theorem connect_auth401_retry (cfg : ConnectCfg) (g : GlobalOracle)
    (a1 a2 : AttemptOracle) (s : ConnState) (st : AuthStore)
    (hHealth : cfg.transportType ≠ .streamableHttp →
      checkProxyHealth g.healthFetch = .ok ())
    (hUrl : cfg.transportType = .streamableHttp → g.sseUrlParses = true)
    (h401 : a1.handshake = .transportError 401) :
    (a1.authAuthorized = true → a2.handshake = .success →
      a2.postSetupOk = true →
      (connect cfg g a1 [a2] s st).state.connectionStatus = .connected ∧
      (connect cfg g a1 [a2] s st).handshakes = 2) ∧
    (a1.authAuthorized = false →
      ∀ rest, (connect cfg g a1 rest s st).state = s) := by
  constructor
  · intro hauth hs2 hps2
    have e1 : connectAttempt cfg g a1 s st =
        ⟨.retry s (handleAuthError cfg.serverUrlKey cfg.sseUrl
            a1.authAuthorized (.transportError 401) st).2,
          if cfg.transportType = .streamableHttp then 0 else 1, 1, 1,
          [authHeader cfg.bearerToken st.tokens]⟩ := by
      rw [connectAttempt_through cfg g a1 s st hHealth hUrl,
        connectHandshake_on401 cfg a1 s st _ _ h401, hauth]
      simp
    have e2 : connectAttempt cfg g a2 s
        (handleAuthError cfg.serverUrlKey cfg.sseUrl a1.authAuthorized
          (.transportError 401) st).2 =
        ⟨.done { s with connectionStatus := .connected,
                        serverCapabilities := a2.capabilities,
                        completionsSupported := true,
                        mcpClient := some () }
          (handleAuthError cfg.serverUrlKey cfg.sseUrl a1.authAuthorized
            (.transportError 401) st).2,
          if cfg.transportType = .streamableHttp then 0 else 1, 1, 1,
          [authHeader cfg.bearerToken
            (handleAuthError cfg.serverUrlKey cfg.sseUrl a1.authAuthorized
              (.transportError 401) st).2.tokens]⟩ := by
      rw [connectAttempt_through cfg g a2 s _ hHealth hUrl,
        connectHandshake_onSuccess cfg a2 s _ _ _ hs2 hps2]
    simp [connect, connectGo, e1, e2]
  · intro hauth rest
    have e1 : connectAttempt cfg g a1 s st =
        ⟨.done s (handleAuthError cfg.serverUrlKey cfg.sseUrl
            a1.authAuthorized (.transportError 401) st).2,
          if cfg.transportType = .streamableHttp then 0 else 1, 1, 1,
          [authHeader cfg.bearerToken st.tokens]⟩ := by
      rw [connectAttempt_through cfg g a1 s st hHealth hUrl,
        connectHandshake_on401 cfg a1 s st _ _ h401, hauth]
      simp
    cases rest <;> simp [connect, connectGo, e1]

/-- Witness for C2: a concrete 401-then-authorized run ending connected
after exactly two handshakes, and a concrete redirect-pending run leaving
the state untouched. -/
theorem connect_auth401_retry_witness :
    ((connect sampleCfgStream sampleOracleGood sampleAttempt401Auth
        [sampleAttemptSuccess] sampleFreshState
        ⟨none, none⟩).state.connectionStatus = .connected ∧
     (connect sampleCfgStream sampleOracleGood sampleAttempt401Auth
        [sampleAttemptSuccess] sampleFreshState ⟨none, none⟩).handshakes =
       2) ∧
    (connect sampleCfgStream sampleOracleGood sampleAttempt401Redirect []
        sampleFreshState ⟨none, none⟩).state = sampleFreshState := by
  have h1 := connect_auth401_retry sampleCfgStream sampleOracleGood
    sampleAttempt401Auth sampleAttemptSuccess sampleFreshState ⟨none, none⟩
    (by intro h; simp [sampleCfgStream] at h) (by intro h; rfl) rfl
  have h2 := connect_auth401_retry sampleCfgStream sampleOracleGood
    sampleAttempt401Redirect sampleAttemptSuccess sampleFreshState
    ⟨none, none⟩ (by intro h; simp [sampleCfgStream] at h)
    (by intro h; rfl) rfl
  exact ⟨h1.1 rfl rfl rfl, h2.2 rfl []⟩

/-- C1: every `makeRequest` call on a live session appends exactly one
record to the request history — on success holding the serialized request
and serialized result, on failure (including cancellation) the serialized
request and the serialized error object — even when `suppressToast` is
set, and the record is in place in the state paired with the rethrown
error. -/
theorem makeRequest_appends_one_record (outcome : ReqOutcome)
    (suppressToast : Bool) (request : Obj) (s : ConnState)
    (h : s.mcpClient ≠ none) :
    (makeRequest outcome suppressToast request s).state.requestHistory =
      s.requestHistory ++ [makeRequestRecord outcome request] ∧
    (∀ r, outcome = .success r →
      (makeRequest outcome suppressToast request s).result = .ok r) ∧
    (∀ e, outcome = .failure e →
      (makeRequest outcome suppressToast request s).result = .error e) := by
  obtain ⟨status, caps, client, hist, comp⟩ := s
  cases client with
  | none => simp at h
  | some u =>
    cases outcome <;>
      simp [makeRequest, makeRequestRecord, pushHistory]

/-- Witness for C1 at a concrete failing request on a live session. -/
theorem makeRequest_appends_one_record_witness :
    (makeRequest (.failure (.otherError "timeout")) true (.req "m" "p")
        sampleHistoryState).state.requestHistory =
      sampleHistoryState.requestHistory ++
        [makeRequestRecord (.failure (.otherError "timeout")) (.req "m" "p")] ∧
    (∀ r, ReqOutcome.failure (ReqError.otherError "timeout") = .success r →
      (makeRequest (.failure (.otherError "timeout")) true (.req "m" "p")
          sampleHistoryState).result = .ok r) ∧
    (∀ e, ReqOutcome.failure (ReqError.otherError "timeout") = .failure e →
      (makeRequest (.failure (.otherError "timeout")) true (.req "m" "p")
          sampleHistoryState).result = .error e) :=
  makeRequest_appends_one_record (.failure (.otherError "timeout")) true
    (.req "m" "p") sampleHistoryState (by simp [sampleHistoryState])

lemma connect_nil_authHeaders (cfg : ConnectCfg) (g : GlobalOracle)
    (a : AttemptOracle) (s : ConnState) (st : AuthStore) :
    (connect cfg g a [] s st).authHeaders =
      (connectAttempt cfg g a s st).authHeaders := by
  simp only [connect, connectGo]
  cases hstep : (connectAttempt cfg g a s st).step <;> simp

lemma connectHandshake_authHeaders (cfg : ConnectCfg) (a : AttemptOracle)
    (s : ConnState) (st : AuthStore) (hc : Nat) (hd : Option String) :
    (connectHandshake cfg a s st hc hd).authHeaders = [hd] :=
  (connectHandshake_counts cfg a s st hc hd).2.2.2

lemma connectAttempt_authHeaders (cfg : ConnectCfg) (g : GlobalOracle)
    (a : AttemptOracle) (s : ConnState) (st : AuthStore)
    (hHealth : cfg.transportType ≠ .streamableHttp →
      checkProxyHealth g.healthFetch = .ok ()) :
    (connectAttempt cfg g a s st).authHeaders =
      [authHeader cfg.bearerToken st.tokens] := by
  unfold connectAttempt connectBuildTransport
  by_cases h : cfg.transportType = .streamableHttp
  · rw [if_pos h]
    by_cases hp : g.sseUrlParses <;>
      simp [h, hp, connectHandshake_authHeaders]
  · rw [if_neg h, hHealth h]
    simp [h, connectHandshake_authHeaders]

/-- C10: when both a manual bearer token and an OAuth access token are
available, the Authorization header attached to the transport inside
`connect` is `Bearer <manual token>`; when neither is available, no
Authorization header is attached. -/
theorem connect_bearer_token_precedence (cfg : ConnectCfg)
    (g : GlobalOracle) (a : AttemptOracle) (s : ConnState) (st : AuthStore)
    (hHealth : cfg.transportType ≠ .streamableHttp →
      checkProxyHealth g.healthFetch = .ok ()) :
    (∀ m o, cfg.bearerToken = some m → m ≠ "" → st.tokens = some o →
      (connect cfg g a [] s st).authHeaders = [some ("Bearer " ++ m)]) ∧
    (cfg.bearerToken = none → st.tokens = none →
      (connect cfg g a [] s st).authHeaders = [none]) := by
  have hh := connect_nil_authHeaders cfg g a s st
  rw [connectAttempt_authHeaders cfg g a s st hHealth] at hh
  constructor
  · intro m o hb hm ho
    rw [hh, hb, ho]
    simp [authHeader, jsOrString, hm]
  · intro hb ho
    rw [hh, hb, ho]
    simp [authHeader, jsOrString]

/-- Witness for C10: a `streamableHttp` connect carrying both a manual
token and an OAuth token uses the manual one; with neither, the header is
absent. -/
theorem connect_bearer_token_precedence_witness :
    (connect ⟨.streamableHttp, "http://target.example/mcp", some "manual",
        "lastServerUrl"⟩ sampleOracleGood sampleAttemptSuccess []
        sampleFreshState ⟨none, some "oauth"⟩).authHeaders =
      [some ("Bearer " ++ "manual")] ∧
    (connect sampleCfgStream sampleOracleGood sampleAttemptSuccess []
        sampleFreshState ⟨none, none⟩).authHeaders = [none] := by
  have h1 := connect_bearer_token_precedence
    ⟨.streamableHttp, "http://target.example/mcp", some "manual",
      "lastServerUrl"⟩ sampleOracleGood sampleAttemptSuccess
    sampleFreshState ⟨none, some "oauth"⟩ (by intro h; simp at h)
  have h2 := connect_bearer_token_precedence sampleCfgStream
    sampleOracleGood sampleAttemptSuccess sampleFreshState ⟨none, none⟩
    (by intro h; simp [sampleCfgStream] at h)
  exact ⟨h1.1 "manual" "oauth" rfl (by decide) rfl, h2.2 rfl rfl⟩

/-- C6: a completion lookup answered with a `MethodNotFound` protocol
error returns `[]`, durably clears the completion-capability flag and
shows no toast; while the flag is false every completion call
short-circuits to `[]` with zero network requests; any other error is
toasted and rethrown. -/
theorem handleCompletion_method_not_found :
    (∀ msg rn an v (s : ConnState), s.mcpClient ≠ none →
      s.completionsSupported = true →
      (handleCompletion (.failure (.mcpError methodNotFoundCode msg))
          rn an v s).result = .ok [] ∧
      (handleCompletion (.failure (.mcpError methodNotFoundCode msg))
          rn an v s).state.completionsSupported = false ∧
      (handleCompletion (.failure (.mcpError methodNotFoundCode msg))
          rn an v s).toasts = []) ∧
    (∀ outcome rn an v (s : ConnState), s.completionsSupported = false →
      handleCompletion outcome rn an v s = ⟨.ok [], s, [], 0⟩) ∧
    (∀ e rn an v (s : ConnState), s.mcpClient ≠ none →
      s.completionsSupported = true →
      (∀ c m, e = ReqError.mcpError c m → c ≠ methodNotFoundCode) →
      (handleCompletion (.failure e) rn an v s).result = .error e ∧
      (handleCompletion (.failure e) rn an v s).toasts = [e.message]) := by
  refine ⟨?_, ?_, ?_⟩
  · intro msg rn an v s hc hsup
    obtain ⟨status, caps, client, hist, comp⟩ := s
    cases client with
    | none => simp at hc
    | some u =>
      simp_all [handleCompletion, makeRequest, pushHistory]
  · intro outcome rn an v s hsup
    unfold handleCompletion
    rw [if_pos (Or.inr hsup)]
  · intro e rn an v s hc hsup he
    obtain ⟨status, caps, client, hist, comp⟩ := s
    cases client with
    | none => simp at hc
    | some u =>
      cases e with
      | mcpError c m =>
        have hne : ¬ c = methodNotFoundCode := he c m rfl
        simp_all [handleCompletion, makeRequest, pushHistory,
          ReqError.message]
      | otherError m =>
        simp_all [handleCompletion, makeRequest, pushHistory,
          ReqError.message]

/-- Witness for C6 at a concrete connected session: a MethodNotFound
reply, a short-circuiting second call, and a rethrown generic error. -/
theorem handleCompletion_method_not_found_witness :
    ((handleCompletion (.failure (.mcpError methodNotFoundCode "nope"))
        "ref" "arg" "va" sampleHistoryState).result = .ok [] ∧
     (handleCompletion (.failure (.mcpError methodNotFoundCode "nope"))
        "ref" "arg" "va" sampleHistoryState).state.completionsSupported =
       false ∧
     (handleCompletion (.failure (.mcpError methodNotFoundCode "nope"))
        "ref" "arg" "va" sampleHistoryState).toasts = []) ∧
    (handleCompletion (.success (.completionResult ["x"])) "ref" "arg" "va"
        { sampleHistoryState with completionsSupported := false } =
      ⟨.ok [], { sampleHistoryState with completionsSupported := false },
        [], 0⟩) ∧
    ((handleCompletion (.failure (.otherError "boom")) "ref" "arg" "va"
        sampleHistoryState).result = .error (.otherError "boom") ∧
     (handleCompletion (.failure (.otherError "boom")) "ref" "arg" "va"
        sampleHistoryState).toasts =
       [ReqError.message (.otherError "boom")]) :=
  ⟨handleCompletion_method_not_found.1 "nope" "ref" "arg" "va"
      sampleHistoryState (by simp [sampleHistoryState]) rfl,
   handleCompletion_method_not_found.2.1
      (.success (.completionResult ["x"])) "ref" "arg" "va"
      { sampleHistoryState with completionsSupported := false } rfl,
   handleCompletion_method_not_found.2.2 (.otherError "boom") "ref" "arg"
      "va" sampleHistoryState (by simp [sampleHistoryState]) rfl
      (by intro c m h; cases h)⟩

/-- C3 (code bug): `handleAuthError` compares the storage KEY constant
`SESSION_KEYS.SERVER_URL` itself against `sseUrl` instead of the stored
value `sessionStorage.getItem(SESSION_KEYS.SERVER_URL)`.  Evaluated on a
401: with the remembered URL equal to the in-progress URL the tokens are
cleared anyway, and with the in-progress URL equal to the key literal the
tokens survive although the remembered URL differs. -/
theorem handleAuthError_key_comparison_bug :
    (handleAuthError "lastServerUrl" "http://a.example/mcp" true
        (.transportError 401)
        ⟨some "http://a.example/mcp", some "tokenA"⟩).2 =
      ⟨some "http://a.example/mcp", none⟩ ∧
    (handleAuthError "lastServerUrl" "lastServerUrl" true
        (.transportError 401)
        ⟨some "http://b.example/mcp", some "tokenB"⟩).2 =
      ⟨some "lastServerUrl", some "tokenB"⟩ := by
  constructor <;> simp [handleAuthError, isAuth401]

/-- The comparison the spec intends (`handleAuthErrorSpec`) does satisfy
the claim: on a 401 the tokens are cleared exactly when the remembered
server URL differs from the in-progress one, before the new URL is
persisted. -/
theorem handleAuthErrorSpec_clears_on_switch (sseUrl : String)
    (authAuthorized : Bool) (st : AuthStore) :
    (st.storedServerUrl ≠ some sseUrl →
      (handleAuthErrorSpec sseUrl authAuthorized (.transportError 401)
        st).2 = ⟨some sseUrl, none⟩) ∧
    (st.storedServerUrl = some sseUrl →
      (handleAuthErrorSpec sseUrl authAuthorized (.transportError 401)
        st).2 = ⟨some sseUrl, st.tokens⟩) := by
  constructor <;> intro h <;> simp [handleAuthErrorSpec, isAuth401, h]

/-- Closed instance of `handleAuthErrorSpec_clears_on_switch`. -/
theorem handleAuthErrorSpec_clears_on_switch_witness :
    (handleAuthErrorSpec "http://b.example/mcp" true (.transportError 401)
        ⟨some "http://a.example/mcp", some "tokenA"⟩).2 =
      ⟨some "http://b.example/mcp", none⟩ :=
  (handleAuthErrorSpec_clears_on_switch "http://b.example/mcp" true
      ⟨some "http://a.example/mcp", some "tokenA"⟩).1 (by simp)

/-- C7 (counterexample): a successful `connect` does not clear the
request history — records from the previous session survive into the new
session. -/
theorem connect_does_not_clear_history :
    (connect sampleCfgStream sampleOracleGood sampleAttemptSuccess []
        sampleHistoryState ⟨none, none⟩).state.connectionStatus =
      .connected ∧
    (connect sampleCfgStream sampleOracleGood sampleAttemptSuccess []
        sampleHistoryState ⟨none, none⟩).state.requestHistory =
      sampleHistoryState.requestHistory ∧
    sampleHistoryState.requestHistory ≠ [] := by
  refine ⟨?_, ?_, by simp [sampleHistoryState]⟩ <;>
    simp [connect, connectGo, connectAttempt, connectBuildTransport,
      connectHandshake, sampleCfgStream, sampleOracleGood,
      sampleAttemptSuccess, sampleHistoryState, authHeader, jsOrString]

/-- C7 (amended): the request history is append-only — `makeRequest` and
`sendNotification` only ever append records — and `connect` leaves it
untouched, so records from previous sessions persist rather than being
cleared when a new session is created. -/
theorem history_append_only_not_cleared :
    (∀ outcome b req (s : ConnState), ∃ t,
      (makeRequest outcome b req s).state.requestHistory =
        s.requestHistory ++ t) ∧
    (∀ outcome n (s : ConnState), ∃ t,
      (sendNotification outcome n s).state.requestHistory =
        s.requestHistory ++ t) ∧
    (∀ cfg g a rest (s : ConnState) st,
      (connect cfg g a rest s st).state.requestHistory =
        s.requestHistory) := by
  refine ⟨?_, ?_, ?_⟩
  · intro outcome b req s
    obtain ⟨status, caps, client, hist, comp⟩ := s
    cases client with
    | none => exact ⟨[], by simp [makeRequest]⟩
    | some u =>
      cases outcome with
      | success r =>
        exact ⟨[⟨stringify req, some (stringify r)⟩],
          by simp [makeRequest, pushHistory]⟩
      | failure e =>
        exact ⟨[⟨stringify req, some (stringify (.errObj e.message))⟩],
          by simp [makeRequest, pushHistory]⟩
  · intro outcome n s
    obtain ⟨status, caps, client, hist, comp⟩ := s
    cases client with
    | none => exact ⟨[], by simp [sendNotification]⟩
    | some u =>
      cases outcome with
      | success =>
        exact ⟨[⟨stringify n, none⟩], by simp [sendNotification, pushHistory]⟩
      | failure e =>
        cases e with
        | mcpError c m =>
          exact ⟨[⟨stringify n, some (stringify (.errObj m))⟩],
            by simp [sendNotification, pushHistory]⟩
        | otherError m =>
          exact ⟨[], by simp [sendNotification]⟩
  · intro cfg g a rest s st
    exact (connectGo_state cfg g rest a s st).1

/-- C8: `disconnect` unconditionally resets status to `disconnected`,
clears capabilities and the client handle, and sets the
completion-capability flag to false, regardless of the prior state. -/
theorem disconnect_resets_state (s : ConnState) :
    (disconnect s).connectionStatus = .disconnected ∧
    (disconnect s).serverCapabilities = none ∧
    (disconnect s).mcpClient = none ∧
    (disconnect s).completionsSupported = false := by
  simp [disconnect]

/-- C9: `makeRequest` with no live client throws
`"MCP client not connected"`, leaves the history untouched and shows no
toast, whatever the `suppressToast` option. -/
theorem makeRequest_not_connected (outcome : ReqOutcome)
    (suppressToast : Bool) (request : Obj) (s : ConnState)
    (h : s.mcpClient = none) :
    makeRequest outcome suppressToast request s =
      ⟨.error (.otherError "MCP client not connected"), s, []⟩ := by
  unfold makeRequest
  rw [h]

/-- Witness for C9 at a concrete disconnected state. -/
theorem makeRequest_not_connected_witness :
    makeRequest (.success (.res "r")) false (.req "m" "p") sampleFreshState =
      ⟨.error (.otherError "MCP client not connected"),
        sampleFreshState, []⟩ :=
  makeRequest_not_connected (.success (.res "r")) false (.req "m" "p")
    sampleFreshState (by simp [sampleFreshState])

end McpInspector
